import Mathlib

/-!
Verification of the sharded, replicated database access layer of the
distributed e-learning platform (module src/db): region-to-shard resolution,
master/replica routing, the pooled-connection context manager, the four
execution operations, and health aggregation.  Definitions are shallow
embeddings of the Python source in
src/db/postgres_scripts/connection_manager.py, src/db/config/database_config.py
and src/db/health_check.py.
-/

namespace ELearnDB

/-- Configuration record for one PostgreSQL node, mirroring
dataclass PostgresNodeConfig in src/db/config/database_config.py. -/
structure PostgresNodeConfig where
  host : String
  port : Nat
  database : String
  user : String
  password : String
  role : String
  region : String
  shard_id : Nat
deriving DecidableEq, Repr

/-- Master node list, mirroring DatabaseConfig.POSTGRES_MASTER_NODES with the
default values of the environment variables. -/
def POSTGRES_MASTER_NODES : List PostgresNodeConfig :=
  [ { host := "localhost", port := 5432, database := "elearning_na",
      user := "postgres", password := "postgres", role := "master",
      region := "north_america", shard_id := 1 },
    { host := "localhost", port := 5433, database := "elearning_eu",
      user := "postgres", password := "postgres", role := "master",
      region := "europe", shard_id := 2 },
    { host := "localhost", port := 5434, database := "elearning_asia",
      user := "postgres", password := "postgres", role := "master",
      region := "asia", shard_id := 3 } ]

/-- Slave node list, mirroring DatabaseConfig.POSTGRES_SLAVE_NODES with the
default values of the environment variables. -/
def POSTGRES_SLAVE_NODES : List PostgresNodeConfig :=
  [ { host := "localhost", port := 5435, database := "elearning_na",
      user := "postgres", password := "postgres", role := "slave",
      region := "north_america", shard_id := 1 },
    { host := "localhost", port := 5436, database := "elearning_eu",
      user := "postgres", password := "postgres", role := "slave",
      region := "europe", shard_id := 2 },
    { host := "localhost", port := 5437, database := "elearning_asia",
      user := "postgres", password := "postgres", role := "slave",
      region := "asia", shard_id := 3 } ]

/-- Static region-to-shard table, mirroring DatabaseConfig.REGION_MAPPING. -/
def REGION_MAPPING : List (String × Nat) :=
  [ ("north_america", 1), ("south_america", 1),
    ("europe", 2), ("africa", 2),
    ("asia", 3), ("oceania", 3) ]

/-- Model of Python str.lower() (the region names involved are ASCII). -/
def py_lower (s : String) : String := String.mk (s.data.map Char.toLower)

/-- Model of Python str.upper() (statement keywords are ASCII). -/
def py_upper (s : String) : String := String.mk (s.data.map Char.toUpper)

/-- Whitespace recognised by Python str.strip(). -/
def py_is_space (c : Char) : Bool :=
  c == ' ' || c == '\t' || c == '\n' || c == '\r' || c == '\x0b' || c == '\x0c'

/-- Model of Python str.strip(): drop leading and trailing whitespace. -/
def py_strip (s : String) : String :=
  String.mk (((s.data.dropWhile py_is_space).reverse.dropWhile py_is_space).reverse)

/-- Model of Python str.startswith for a single prefix string. -/
def py_startswith (s pre : String) : Bool := pre.data.isPrefixOf s.data

/-- Error taxonomy of the access layer.  The Python code raises ValueError for
an unknown region and for a missing master pool; statement execution failures
are psycopg2 errors, split here into the query/transport distinction the spec
names. -/
inductive DbError where
  | unknownRegion (region : String)
  | noMasterPool (shard_id : Nat)
  | queryError (msg : String)
  | connectivityError (msg : String)
deriving DecidableEq, Repr

/-- Embedding of PostgresConnectionManager._get_shard_id: look the lowercased
region up in REGION_MAPPING; Python raises ValueError when the lookup result
is falsy (None, or the integer 0, which never occurs as a value of the
table). -/
def get_shard_id (region : String) : Except DbError Nat :=
  match REGION_MAPPING.lookup (py_lower region) with
  | none => Except.error (DbError.unknownRegion region)
  | some sid =>
      if sid = 0 then Except.error (DbError.unknownRegion region)
      else Except.ok sid

/-- Identity of one pool of the manager: the master pool of a shard, or the
idx-th slave pool of a shard (the manager keeps a list of slave pools per
shard). -/
inductive PoolRef where
  | master (shard_id : Nat)
  | slave (shard_id : Nat) (idx : Nat)
deriving DecidableEq, Repr

/-- Which pools the manager holds after _initialize_pools: whether a master
pool exists for a shard, and how many slave pools a shard has.  In the Python
dictionaries a shard key is present in _slave_pools exactly when its list is
nonempty, so a count suffices. -/
structure PoolConfig where
  hasMaster : Nat → Bool
  slaveCount : Nat → Nat

/-- Pool configuration produced by _initialize_pools from the static
DatabaseConfig node lists. -/
def initialized_pool_config : PoolConfig where
  hasMaster := fun sid => (POSTGRES_MASTER_NODES.map (fun n => n.shard_id)).contains sid
  slaveCount := fun sid => (POSTGRES_SLAVE_NODES.filter (fun n => n.shard_id == sid)).length

/-- Pool-selection logic of get_connection (lines 92-102): a read-only
operation uses the first slave pool of the shard when the shard has at least
one slave pool, otherwise the master pool; a missing master pool raises
ValueError. -/
def select_pool (pc : PoolConfig) (sid : Nat) (read_only : Bool) :
    Except DbError PoolRef :=
  if read_only && decide (0 < pc.slaveCount sid) then
    Except.ok (PoolRef.slave sid 0)
  else if pc.hasMaster sid then
    Except.ok (PoolRef.master sid)
  else
    Except.error (DbError.noMasterPool sid)

/-- Release logic of get_connection's finally block (lines 113-119): the same
condition as acquisition decides which pool putconn is called on; when the
else branch finds no master pool nothing is released (that situation only
arises when no connection was acquired). -/
def release_target (pc : PoolConfig) (sid : Nat) (read_only : Bool) :
    Option PoolRef :=
  if read_only && decide (0 < pc.slaveCount sid) then
    some (PoolRef.slave sid 0)
  else if pc.hasMaster sid then
    some (PoolRef.master sid)
  else
    none

/-- State of one leased connection: the committed database state, visible to
every other caller, and the pending state of the connection's current
transaction. -/
structure Conn (σ : Type u) where
  committed : σ
  pending : σ
deriving DecidableEq, Repr

/-- Semantics of conn.commit(): publish the pending state. -/
def Conn.commit (c : Conn σ) : Conn σ :=
  { c with committed := c.pending }

/-- Semantics of conn.rollback(): discard the pending state. -/
def Conn.rollback (c : Conn σ) : Conn σ :=
  { c with pending := c.committed }

/-- Observable outcome of one operation run through get_connection: the value
returned or error raised, the pool the connection was taken from (none when
resolution or pool selection failed before getconn), the pool putconn returned
it to (none when it was never returned), and the connection's final state. -/
structure RunOutcome (σ : Type u) (α : Type v) where
  result : Except DbError α
  acquiredFrom : Option PoolRef
  returnedTo : Option PoolRef
  finalConn : Option (Conn σ)

/-- Embedding of the get_connection context manager (lines 76-119) applied to
a body.  Region resolution happens before the try block; pool selection and
acquisition happen inside it; after the body yields, conn.commit() runs; if
the body raises, conn.rollback() runs and the exception propagates; the
finally block returns the connection to the pool picked by release_target.
The body receives the connection and gives back its result together with the
connection state it left behind. -/
def get_connection_run (pc : PoolConfig) (region : String) (read_only : Bool)
    (init : Conn σ) (body : Conn σ → Except DbError α × Conn σ) :
    RunOutcome σ α :=
  match get_shard_id region with
  | Except.error e =>
      { result := Except.error e, acquiredFrom := none,
        returnedTo := none, finalConn := none }
  | Except.ok sid =>
    match select_pool pc sid read_only with
    | Except.error e =>
        { result := Except.error e, acquiredFrom := none,
          returnedTo := none, finalConn := none }
    | Except.ok pref =>
      match body init with
      | (Except.ok a, c1) =>
          { result := Except.ok a, acquiredFrom := some pref,
            returnedTo := release_target pc sid read_only,
            finalConn := some c1.commit }
      | (Except.error e, c1) =>
          { result := Except.error e, acquiredFrom := some pref,
            returnedTo := release_target pc sid read_only,
            finalConn := some c1.rollback }

/-- Semantics of cursor.execute on the underlying node: given statement text,
optional parameters and the connection's pending state it either fails or
yields the next pending state together with the rows the cursor would fetch.
The manager never interprets this beyond the statement-text prefix test. -/
def Engine (σ Row π : Type) : Type :=
  String → Option π → σ → Except DbError (σ × List Row)

/-- Embedding of the mutating-statement test of execute_query (line 146):
query.strip().upper().startswith(("INSERT", "UPDATE", "DELETE")). -/
def is_mutating (query : String) : Bool :=
  let q := py_upper (py_strip query)
  py_startswith q "INSERT" || py_startswith q "UPDATE" || py_startswith q "DELETE"

/-- Return shape of execute_query: Python None, a single row dictionary, or a
list of row dictionaries. -/
inductive QueryResult (Row : Type) where
  | noRows
  | oneRow (r : Row)
  | manyRows (rs : List Row)
deriving DecidableEq, Repr

/-- Embedding of PostgresConnectionManager.execute_query (lines 121-155):
inside get_connection, run the statement; a statement whose stripped
uppercased text starts with INSERT, UPDATE or DELETE is committed at once and
returns None; otherwise fetch_one returns the first row (None when the cursor
has no row) and the default path returns all rows. -/
def execute_query (pc : PoolConfig) (eng : Engine σ Row π) (region : String)
    (query : String) (params : Option π) (read_only fetch_one : Bool)
    (init : Conn σ) : RunOutcome σ (QueryResult Row) :=
  get_connection_run pc region read_only init (fun c =>
    match eng query params c.pending with
    | Except.error e => (Except.error e, c)
    | Except.ok (s1, rows) =>
        let c1 : Conn σ := { c with pending := s1 }
        if is_mutating query then
          (Except.ok QueryResult.noRows, c1.commit)
        else if fetch_one then
          match rows with
          | [] => (Except.ok QueryResult.noRows, c1)
          | r :: _ => (Except.ok (QueryResult.oneRow r), c1)
        else
          (Except.ok (QueryResult.manyRows rows), c1))

/-- Loop body of execute_transaction (lines 222-223): run the queries in
order on the pending state, stopping at the first failure; an error carries
the pending state reached so far, so rollback applies to exactly the state
the failed loop left behind. -/
def run_queries (eng : Engine σ Row π) :
    List (String × Option π) → σ → Except (DbError × σ) σ
  | [], s => Except.ok s
  | (q, p) :: rest, s =>
      match eng q p s with
      | Except.error e => Except.error (e, s)
      | Except.ok (s1, _) => run_queries eng rest s1

/-- Embedding of PostgresConnectionManager.execute_transaction (lines
207-228): read_only is fixed to false; every query runs in order on one
connection; if all succeed conn.commit() runs, otherwise the inner except
block runs conn.rollback() and re-raises (the surrounding get_connection then
rolls back again, a no-op, and returns the connection to its pool). -/
def execute_transaction (pc : PoolConfig) (eng : Engine σ Row π)
    (region : String) (queries : List (String × Option π)) (init : Conn σ) :
    RunOutcome σ Unit :=
  get_connection_run pc region false init (fun c =>
    match run_queries eng queries c.pending with
    | Except.ok s1 => (Except.ok (), Conn.commit { c with pending := s1 })
    | Except.error (e, s1) => (Except.error e, Conn.rollback { c with pending := s1 }))

/-- Semantics of cursor.executemany in execute_many (line 173): the same
statement runs once per parameter tuple, in order, stopping at the first
failure. -/
def run_executemany (eng : Engine σ Row π) (query : String) :
    List π → σ → Except (DbError × σ) σ
  | [], s => Except.ok s
  | p :: rest, s =>
      match eng query (some p) s with
      | Except.error e => Except.error (e, s)
      | Except.ok (s1, _) => run_executemany eng query rest s1

/-- Embedding of PostgresConnectionManager.execute_many (lines 157-174):
read_only is fixed to false; executemany runs then conn.commit(); a failure
propagates uncaught to get_connection, which rolls back. -/
def execute_many (pc : PoolConfig) (eng : Engine σ Row π) (region : String)
    (query : String) (params_list : List π) (init : Conn σ) :
    RunOutcome σ Unit :=
  get_connection_run pc region false init (fun c =>
    match run_executemany eng query params_list c.pending with
    | Except.ok s1 => (Except.ok (), Conn.commit { c with pending := s1 })
    | Except.error (e, s1) => (Except.error e, { c with pending := s1 }))

/-- Semantics of cursor.callproc followed by fetchall in call_procedure: the
routine either fails, or yields a new state and possibly a result set; none
stands for the ProgrammingError path where the routine returns no results. -/
def ProcEngine (σ Row π : Type) : Type :=
  String → Option π → σ → Except DbError (σ × Option (List Row))

/-- Embedding of PostgresConnectionManager.call_procedure (lines 176-205):
inside get_connection, call the routine; when fetchall yields rows they are
returned; when the routine produces no result set conn.commit() runs and None
is returned. -/
def call_procedure (pc : PoolConfig) (peng : ProcEngine σ Row π)
    (region procedure_name : String) (params : Option π) (read_only : Bool)
    (init : Conn σ) : RunOutcome σ (Option (List Row)) :=
  get_connection_run pc region read_only init (fun c =>
    match peng procedure_name params c.pending with
    | Except.error e => (Except.error e, c)
    | Except.ok (s1, some rows) => (Except.ok (some rows), { c with pending := s1 })
    | Except.ok (s1, none) => (Except.ok none, Conn.commit { c with pending := s1 }))

/-- Dictionary key used for a node's health entry: f-strings
master_shard_{shard_id} and slave_shard_{shard_id}_{idx} of health_check. -/
def node_label : PoolRef → String
  | PoolRef.master sid => "master_shard_" ++ toString sid
  | PoolRef.slave sid idx => "slave_shard_" ++ toString sid ++ "_" ++ toString idx

/-- Pool enumeration order of health_check (lines 252-275): every master pool
by shard, then for every shard its slave pools by index.  The argument lists
mirror _master_pools.items() (shard ids) and _slave_pools.items() (shard id
together with the length of its slave-pool list). -/
def health_nodes (masters : List Nat) (slaves : List (Nat × Nat)) :
    List PoolRef :=
  masters.map PoolRef.master
    ++ slaves.flatMap (fun p => (List.range p.2).map (PoolRef.slave p.1))

/-- Outcome of probing one pool: getconn, SELECT 1.  An error on either step
lands in the per-node except block. -/
def Probe : Type := PoolRef → Except DbError Unit

/-- Boolean a probe outcome turns into in health_status. -/
def probe_ok (pr : Except DbError Unit) : Bool :=
  match pr with
  | Except.ok _ => true
  | Except.error _ => false

/-- Embedding of PostgresConnectionManager.health_check (lines 243-277): one
loop over the master pools and one over the slave pools, each iteration
probing its own pool inside its own try block, recording True on success and
False on any exception, never stopping the loops. -/
def health_check (masters : List Nat) (slaves : List (Nat × Nat))
    (probe : Probe) : List (String × Bool) :=
  (masters.map (fun sid =>
      match probe (PoolRef.master sid) with
      | Except.ok _ => (node_label (PoolRef.master sid), true)
      | Except.error _ => (node_label (PoolRef.master sid), false)))
    ++ slaves.flatMap (fun p =>
        (List.range p.2).map (fun idx =>
          match probe (PoolRef.slave p.1 idx) with
          | Except.ok _ => (node_label (PoolRef.slave p.1 idx), true)
          | Except.error _ => (node_label (PoolRef.slave p.1 idx), false)))

/-- Fleet aggregation of DatabaseHealthCheck.check_postgres_health (lines
30-42): healthy_nodes counts the True entries and all_healthy compares it to
total_nodes. -/
def all_healthy (hs : List (String × Bool)) : Bool :=
  (hs.countP (fun e => e.2)) == hs.length

/-- Per-node probe of health_check, separated into its two fallible steps:
the pool.getconn() call and the cursor.execute("SELECT 1") on the obtained
connection. -/
structure NodeProbe where
  getconn : Except DbError Unit
  select1 : Except DbError Unit
deriving Repr

/-- Resource trace of one iteration of health_check's per-node loop body
(lines 254-262 for a master): whether the node was reported healthy, whether
a connection was taken from the pool, and whether putconn returned it.  The
source calls putconn only on the line after a successful SELECT 1; both
except paths skip it. -/
structure CheckNodeOutcome where
  healthy : Bool
  acquired : Bool
  released : Bool
deriving DecidableEq, Repr

/-- Embedding of one iteration of health_check's loop: getconn, then
SELECT 1, then putconn and True; any exception is caught and recorded as
False.  A failure of getconn acquires nothing; a failure of SELECT 1 leaves
the acquired connection unreturned because putconn sits after it inside the
try block. -/
def check_node (p : NodeProbe) : CheckNodeOutcome :=
  match p.getconn with
  | Except.error _ => { healthy := false, acquired := false, released := false }
  | Except.ok _ =>
    match p.select1 with
    | Except.error _ => { healthy := false, acquired := true, released := false }
    | Except.ok _ => { healthy := true, acquired := true, released := true }

/-- Demonstration engine over a counter state: the statement text BOOM fails
with a query error, NETDOWN fails with a transport error, anything else bumps
the state and yields one row. -/
def eng_demo : Engine Nat Nat Nat := fun q _ s =>
  if q == "BOOM" then Except.error (DbError.queryError "boom")
  else if q == "NETDOWN" then Except.error (DbError.connectivityError "down")
  else if q == "EMPTY" then Except.ok (s, [])
  else Except.ok (s + 1, [s])

/-- Fresh connection over the counter state. -/
def conn0 : Conn Nat := { committed := 0, pending := 0 }

/-- Three-statement transaction whose second statement fails, the scenario of
the spec's atomicity property. -/
def tx_demo : List (String × Option Nat) :=
  [("INSERT a", none), ("BOOM", none), ("INSERT c", none)]

/-- Pool configuration with a single master shard and no replicas. -/
def pc_noslaves : PoolConfig where
  hasMaster := fun sid => sid == 1
  slaveCount := fun _ => 0

/-- Operation body that fails with a transport error, leaving the connection
untouched. -/
def body_netdown : Conn Nat → Except DbError Unit × Conn Nat :=
  fun c => (Except.error (DbError.connectivityError "down"), c)

/-- Probe under which every pool answers SELECT 1. -/
def probe_demo : Probe := fun _ => Except.ok ()

/-- Probe under which every pool answers except the first replica of
shard 3, which is unreachable. -/
def probe2_demo : Probe := fun n =>
  if n = PoolRef.slave 3 0 then Except.error (DbError.connectivityError "unreachable")
  else Except.ok ()

/-- Values of the static region table are the shard ids 1, 2 and 3; none is
zero, so the Python falsiness test only fires for an absent key. -/
theorem lookup_region_pos (r : String) (sid : Nat)
    (h : REGION_MAPPING.lookup r = some sid) : 0 < sid := by
  simp only [REGION_MAPPING, List.lookup] at h
  repeat' split at h
  all_goals first | (simp_all; omega) | simp_all

/-- Release target agrees with the selected pool: the finally block of
get_connection re-evaluates the very condition that chose the pool, over
state that has not changed. -/
theorem release_target_eq_selected (pc : PoolConfig) (sid : Nat)
    (ro : Bool) (pref : PoolRef) (hp : select_pool pc sid ro = Except.ok pref) :
    release_target pc sid ro = some pref := by
  unfold select_pool at hp
  unfold release_target
  split at hp
  · next hc => simp only [hc] at *; simp_all
  · next hc =>
    split at hp
    · next hmm => simp_all
    · simp_all

/-- C1: execute_transaction runs the statements in order on one connection;
it commits exactly when every statement succeeds, and on the first statement
failure it rolls back, leaves the committed state exactly as before the call,
and propagates the triggering error. -/
theorem execute_transaction_atomic (pc : PoolConfig) (eng : Engine σ Row π)
    (region : String) (queries : List (String × Option π)) (init : Conn σ)
    (sid : Nat) (pref : PoolRef)
    (hs : get_shard_id region = Except.ok sid)
    (hp : select_pool pc sid false = Except.ok pref) :
    (∀ s1, run_queries eng queries init.pending = Except.ok s1 →
      (execute_transaction pc eng region queries init).result = Except.ok ()
      ∧ ((execute_transaction pc eng region queries init).finalConn.map Conn.committed)
          = some s1)
    ∧ (∀ e s1, run_queries eng queries init.pending = Except.error (e, s1) →
      (execute_transaction pc eng region queries init).result = Except.error e
      ∧ ((execute_transaction pc eng region queries init).finalConn.map Conn.committed)
          = some init.committed) := by
  constructor
  · intro s1 h
    simp [execute_transaction, get_connection_run, hs, hp, h, Conn.commit]
  · intro e s1 h
    simp [execute_transaction, get_connection_run, hs, hp, h, Conn.rollback, Conn.commit]

/-- Witness for C1 at the spec's scenario: a three-statement transaction on
region asia whose second statement fails leaves the committed state at its
initial value and surfaces the second statement's error. -/
theorem execute_transaction_atomic_witness :
    (execute_transaction initialized_pool_config eng_demo "asia" tx_demo conn0).result
        = Except.error (DbError.queryError "boom")
    ∧ ((execute_transaction initialized_pool_config eng_demo "asia" tx_demo conn0).finalConn.map
        Conn.committed) = some 0 :=
  (execute_transaction_atomic initialized_pool_config eng_demo "asia" tx_demo conn0 3
    (PoolRef.master 3) (by rfl) (by rfl)).2 (DbError.queryError "boom") 1 (by rfl)

/-- C2: a write-intent pool selection never yields a replica; asia resolves
to shard 3, and execute_transaction and execute_many (which fix
read_only to false) acquire shard 3's master pool regardless of how many
replica pools the shard has. -/
theorem write_ops_route_to_master (pc : PoolConfig) (eng : Engine σ Row π)
    (queries : List (String × Option π)) (q : String) (plist : List π)
    (init : Conn σ) (hm : pc.hasMaster 3 = true) :
    get_shard_id "asia" = Except.ok 3
    ∧ (∀ sid pref, select_pool pc sid false = Except.ok pref → pref = PoolRef.master sid)
    ∧ (execute_transaction pc eng "asia" queries init).acquiredFrom
        = some (PoolRef.master 3)
    ∧ (execute_many pc eng "asia" q plist init).acquiredFrom
        = some (PoolRef.master 3) := by
  have hga : get_shard_id "asia" = Except.ok 3 := by rfl
  have hsel : select_pool pc 3 false = Except.ok (PoolRef.master 3) := by
    simp [select_pool, hm]
  refine ⟨hga, ?_, ?_, ?_⟩
  · intro sid pref hp
    simp [select_pool] at hp
    split at hp <;> simp_all
  · cases hrq : run_queries eng queries init.pending with
    | ok s1 =>
      simp [execute_transaction, get_connection_run, hga, hsel, hrq]
    | error es =>
      cases es with
      | mk e s1 =>
        simp [execute_transaction, get_connection_run, hga, hsel, hrq]
  · cases hrq : run_executemany eng q plist init.pending with
    | ok s1 =>
      simp [execute_many, get_connection_run, hga, hsel, hrq]
    | error es =>
      cases es with
      | mk e s1 =>
        simp [execute_many, get_connection_run, hga, hsel, hrq]

/-- Witness for C2: with the pools built from the shipped configuration,
which has one replica for shard 3, a transaction on asia still acquires the
shard-3 master pool. -/
theorem write_ops_route_to_master_witness :
    (execute_transaction initialized_pool_config eng_demo "asia" tx_demo conn0).acquiredFrom
      = some (PoolRef.master 3) :=
  (write_ops_route_to_master initialized_pool_config eng_demo tx_demo "INSERT a" [] conn0
    (by rfl)).2.2.1

/-- C3: a read-only selection takes the first replica pool of the shard when
the shard has at least one replica pool, and falls back to the shard's master
pool when it has none. -/
theorem read_routing (pc : PoolConfig) (sid : Nat) :
    (0 < pc.slaveCount sid →
      select_pool pc sid true = Except.ok (PoolRef.slave sid 0))
    ∧ (pc.slaveCount sid = 0 → pc.hasMaster sid = true →
      select_pool pc sid true = Except.ok (PoolRef.master sid)) := by
  constructor
  · intro h; unfold select_pool; simp [h]
  · intro h hm; unfold select_pool; simp [h, hm]

/-- Witness for C3: shard 2 of the shipped configuration has one replica, so
a read goes to its first replica pool; a configuration with no replicas for
shard 1 falls back to shard 1's master. -/
theorem read_routing_witness :
    select_pool initialized_pool_config 2 true = Except.ok (PoolRef.slave 2 0)
    ∧ select_pool pc_noslaves 1 true = Except.ok (PoolRef.master 1) :=
  ⟨(read_routing initialized_pool_config 2).1 (by decide),
   (read_routing pc_noslaves 1).2 (by rfl) (by rfl)⟩

/-- C4: region resolution lowercases its argument and looks it up in the
static table: a region whose lowercasing is a key resolves to that key's
shard id, two spellings with the same lowercasing resolve identically, and a
region absent from the table makes every operation fail with the
unknown-region error before any pool is acquired or released. -/
theorem region_resolution (region : String) (pc : PoolConfig)
    (eng : Engine σ Row π) (peng : ProcEngine σ Row π) (q nm : String)
    (params : Option π) (plist : List π)
    (queries : List (String × Option π)) (ro fo : Bool) (init : Conn σ) :
    (∀ sid, REGION_MAPPING.lookup (py_lower region) = some sid →
      get_shard_id region = Except.ok sid)
    ∧ (∀ r2 sid, py_lower region = py_lower r2 →
      (get_shard_id region = Except.ok sid ↔ get_shard_id r2 = Except.ok sid))
    ∧ (REGION_MAPPING.lookup (py_lower region) = none →
      get_shard_id region = Except.error (DbError.unknownRegion region)
      ∧ (execute_query pc eng region q params ro fo init).result
          = Except.error (DbError.unknownRegion region)
      ∧ (execute_query pc eng region q params ro fo init).acquiredFrom = none
      ∧ (execute_query pc eng region q params ro fo init).returnedTo = none
      ∧ (execute_transaction pc eng region queries init).acquiredFrom = none
      ∧ (execute_many pc eng region q plist init).acquiredFrom = none
      ∧ (call_procedure pc peng region nm params ro init).acquiredFrom = none) := by
  refine ⟨?_, ?_, ?_⟩
  · intro sid h
    have hpos := lookup_region_pos (py_lower region) sid h
    unfold get_shard_id
    rw [h]
    simp [Nat.pos_iff_ne_zero.mp hpos]
  · intro r2 sid h
    unfold get_shard_id
    rw [h]
    cases hl : REGION_MAPPING.lookup (py_lower r2) with
    | none => simp
    | some v =>
      by_cases hv : v = 0
      · simp [hv]
      · simp [hv]
  · intro h
    have hg : get_shard_id region = Except.error (DbError.unknownRegion region) := by
      unfold get_shard_id; rw [h]
    refine ⟨hg, ?_, ?_, ?_, ?_, ?_, ?_⟩ <;>
      simp [execute_query, execute_transaction, execute_many, call_procedure,
        get_connection_run, hg]

/-- Witness for C4: the capitalised spelling Asia resolves to shard 3, while
the unconfigured region mars fails with the unknown-region error and acquires
no pool for a query. -/
theorem region_resolution_witness :
    get_shard_id "Asia" = Except.ok 3
    ∧ (execute_query initialized_pool_config eng_demo "mars" "SELECT 1" none true true conn0).result
        = Except.error (DbError.unknownRegion "mars")
    ∧ (execute_query initialized_pool_config eng_demo "mars" "SELECT 1" none true true conn0).acquiredFrom
        = none :=
  ⟨(region_resolution "Asia" initialized_pool_config eng_demo (fun _ _ s => Except.ok (s, none))
      "SELECT 1" "p" none [] [] true true conn0).1 3 (by rfl),
   ((region_resolution "mars" initialized_pool_config eng_demo (fun _ _ s => Except.ok (s, none))
      "SELECT 1" "p" none [] [] true true conn0).2.2 (by rfl)).2.1,
   ((region_resolution "mars" initialized_pool_config eng_demo (fun _ _ s => Except.ok (s, none))
      "SELECT 1" "p" none [] [] true true conn0).2.2 (by rfl)).2.2.1⟩

/-- C6 counterexample: on a transport failure the connection is NOT
discarded — the finally block of get_connection unconditionally returns it to
the pool it came from.  A query against north_america whose execution raises
a connectivity error ends with the connection handed back to shard 1's
master pool. -/
theorem connectivity_discard_counterexample :
    (execute_query initialized_pool_config eng_demo "north_america" "NETDOWN"
        none false false conn0).result
      = Except.error (DbError.connectivityError "down")
    ∧ (execute_query initialized_pool_config eng_demo "north_america" "NETDOWN"
        none false false conn0).returnedTo
      = some (PoolRef.master 1)
    ∧ ¬ (execute_query initialized_pool_config eng_demo "north_america" "NETDOWN"
        none false false conn0).returnedTo = none := by
  refine ⟨by rfl, by rfl, ?_⟩
  intro h
  simpa using h.symm.trans (by rfl : (execute_query initialized_pool_config eng_demo
    "north_america" "NETDOWN" none false false conn0).returnedTo = some (PoolRef.master 1))

/-- C6 amended: every operation that gets as far as acquiring a connection
returns that connection to the very pool it was acquired from on every exit
path — normal return, logical failure and transport failure alike; no exit
path discards it. -/
theorem connection_always_returned (pc : PoolConfig) (region : String)
    (ro : Bool) (init : Conn σ) (body : Conn σ → Except DbError α × Conn σ)
    (sid : Nat) (pref : PoolRef)
    (hs : get_shard_id region = Except.ok sid)
    (hp : select_pool pc sid ro = Except.ok pref) :
    (get_connection_run pc region ro init body).acquiredFrom = some pref
    ∧ (get_connection_run pc region ro init body).returnedTo = some pref := by
  have hrel := release_target_eq_selected pc sid ro pref hp
  cases hb : body init with
  | mk r c1 =>
    cases r with
    | ok a => simp [get_connection_run, hs, hp, hb, hrel]
    | error e => simp [get_connection_run, hs, hp, hb, hrel]

/-- Witness for the amended C6: a body that fails with a transport error on
region europe still has its connection returned to shard 2's master pool. -/
theorem connection_always_returned_witness :
    (get_connection_run initialized_pool_config "europe" false conn0
        body_netdown).acquiredFrom = some (PoolRef.master 2)
    ∧ (get_connection_run initialized_pool_config "europe" false conn0
        body_netdown).returnedTo = some (PoolRef.master 2) :=
  connection_always_returned initialized_pool_config "europe" false conn0
    body_netdown 2 (PoolRef.master 2) (by rfl) (by rfl)

/-- C8: transcription of one health-probe iteration at the failing input — a
node whose pool hands out a connection but whose SELECT 1 probe raises.  The
probe is reported unhealthy without propagating (as the claim states), but
the acquired connection is never returned to the pool, because putconn sits
after the probe inside the try block: the claimed release-on-every-path is
the intent the code misses. -/
theorem check_node_skips_release :
    check_node { getconn := Except.ok (),
                 select1 := Except.error (DbError.connectivityError "node down") }
      = { healthy := false, acquired := true, released := false }
    ∧ check_node { getconn := Except.ok (), select1 := Except.ok () }
      = { healthy := true, acquired := true, released := true } :=
  ⟨rfl, rfl⟩

/-- C9: execute_query on a statement whose stripped uppercased text starts
with INSERT, UPDATE or DELETE commits at once and returns no rows; on any
other statement it returns the first row under fetch_one and the full row
list otherwise. -/
theorem execute_query_dispatch (pc : PoolConfig) (eng : Engine σ Row π)
    (region query : String) (params : Option π) (ro fo : Bool)
    (init : Conn σ) (sid : Nat) (pref : PoolRef) (s1 : σ) (rows : List Row)
    (hs : get_shard_id region = Except.ok sid)
    (hp : select_pool pc sid ro = Except.ok pref)
    (he : eng query params init.pending = Except.ok (s1, rows)) :
    (is_mutating query = true →
      (execute_query pc eng region query params ro fo init).result
          = Except.ok QueryResult.noRows
      ∧ ((execute_query pc eng region query params ro fo init).finalConn.map
          Conn.committed) = some s1)
    ∧ (is_mutating query = false → fo = true →
      (execute_query pc eng region query params ro fo init).result
        = Except.ok (match rows with
            | [] => QueryResult.noRows
            | r :: _ => QueryResult.oneRow r))
    ∧ (is_mutating query = false → fo = false →
      (execute_query pc eng region query params ro fo init).result
        = Except.ok (QueryResult.manyRows rows)) := by
  refine ⟨?_, ?_, ?_⟩
  · intro hmut
    simp [execute_query, get_connection_run, hs, hp, he, hmut, Conn.commit]
  · intro hmut hfo
    subst hfo
    cases rows with
    | nil => simp [execute_query, get_connection_run, hs, hp, he, hmut]
    | cons r rest => simp [execute_query, get_connection_run, hs, hp, he, hmut]
  · intro hmut hfo
    subst hfo
    simp [execute_query, get_connection_run, hs, hp, he, hmut]

/-- Witness for C9: on region europe, an INSERT commits its effect and
returns no rows; a SELECT with fetch_one false returns the full row list. -/
theorem execute_query_dispatch_witness :
    (execute_query initialized_pool_config eng_demo "europe" "INSERT x"
        none false false conn0).result = Except.ok QueryResult.noRows
    ∧ ((execute_query initialized_pool_config eng_demo "europe" "INSERT x"
        none false false conn0).finalConn.map Conn.committed) = some 1
    ∧ (execute_query initialized_pool_config eng_demo "europe" "SELECT x"
        none false false conn0).result
      = Except.ok (QueryResult.manyRows [0]) :=
  ⟨((execute_query_dispatch initialized_pool_config eng_demo "europe" "INSERT x"
      none false false conn0 2 (PoolRef.master 2) 1 [0]
      (by rfl) (by rfl) (by rfl)).1 (by rfl)).1,
   ((execute_query_dispatch initialized_pool_config eng_demo "europe" "INSERT x"
      none false false conn0 2 (PoolRef.master 2) 1 [0]
      (by rfl) (by rfl) (by rfl)).1 (by rfl)).2,
   (execute_query_dispatch initialized_pool_config eng_demo "europe" "SELECT x"
      none false false conn0 2 (PoolRef.master 2) 1 [0]
      (by rfl) (by rfl) (by rfl)).2.2 (by rfl) (by rfl)⟩

/-- C10: a read statement under fetch_one yields Python None — not an error
and not an empty list — when the cursor has no rows, and exactly the first
row when it has any. -/
theorem fetch_one_semantics (pc : PoolConfig) (eng : Engine σ Row π)
    (region query : String) (params : Option π) (ro : Bool) (init : Conn σ)
    (sid : Nat) (pref : PoolRef) (s1 : σ) (rows : List Row)
    (hs : get_shard_id region = Except.ok sid)
    (hp : select_pool pc sid ro = Except.ok pref)
    (hq : is_mutating query = false)
    (he : eng query params init.pending = Except.ok (s1, rows)) :
    (rows = [] →
      (execute_query pc eng region query params ro true init).result
          = Except.ok QueryResult.noRows
      ∧ (execute_query pc eng region query params ro true init).result
          ≠ Except.ok (QueryResult.manyRows ([] : List Row)))
    ∧ (∀ r rest, rows = r :: rest →
      (execute_query pc eng region query params ro true init).result
        = Except.ok (QueryResult.oneRow r)) := by
  constructor
  · intro hrows
    subst hrows
    constructor
    · simp [execute_query, get_connection_run, hs, hp, he, hq]
    · simp [execute_query, get_connection_run, hs, hp, he, hq]
  · intro r rest hrows
    subst hrows
    simp [execute_query, get_connection_run, hs, hp, he, hq]

/-- Witness for C10: a read returning no rows on region north_america yields
None under fetch_one; a read returning rows yields its first row. -/
theorem fetch_one_semantics_witness :
    (execute_query initialized_pool_config eng_demo "north_america" "EMPTY"
        none true true conn0).result = Except.ok QueryResult.noRows
    ∧ (execute_query initialized_pool_config eng_demo "north_america" "SELECT x"
        none true true conn0).result = Except.ok (QueryResult.oneRow 0) :=
  ⟨((fetch_one_semantics initialized_pool_config eng_demo "north_america" "EMPTY"
      none true conn0 1 (PoolRef.slave 1 0) 0 []
      (by rfl) (by rfl) (by rfl) (by rfl)).1 rfl).1,
   (fetch_one_semantics initialized_pool_config eng_demo "north_america" "SELECT x"
      none true conn0 1 (PoolRef.slave 1 0) 1 [0]
      (by rfl) (by rfl) (by rfl) (by rfl)).2 0 [] rfl⟩

/-- Health report spelled as a map over the node enumeration: each pool gets
exactly one entry, keyed by its label, whose value depends on that pool's
probe outcome alone. -/
theorem health_check_eq_map (masters : List Nat) (slaves : List (Nat × Nat))
    (probe : Probe) :
    health_check masters slaves probe
      = (health_nodes masters slaves).map
          (fun n => (node_label n, probe_ok (probe n))) := by
  unfold health_check health_nodes
  rw [List.map_append, List.map_map, List.map_flatMap]
  congr 1
  · apply List.map_congr_left
    intro sid _
    cases h : probe (PoolRef.master sid) <;> simp [probe_ok, h, Function.comp]
  · congr 1
    funext p
    rw [List.map_map]
    apply List.map_congr_left
    intro idx _
    cases h : probe (PoolRef.slave p.1 idx) <;> simp [probe_ok, h, Function.comp]

/-- C7: the health report has exactly one entry per configured master pool
and per configured replica pool, in enumeration order, each valued by its own
pool's probe alone; the fleet flag is true exactly when every entry is true;
and changing one node's probe outcome leaves every other node's entry
untouched. -/
theorem health_aggregation (masters : List Nat) (slaves : List (Nat × Nat))
    (probe probe2 : Probe) (bad : PoolRef) :
    health_check masters slaves probe
        = (health_nodes masters slaves).map
            (fun n => (node_label n, probe_ok (probe n)))
    ∧ (all_healthy (health_check masters slaves probe) = true
        ↔ ∀ n ∈ health_nodes masters slaves, probe_ok (probe n) = true)
    ∧ ((∀ m : PoolRef, m ≠ bad → probe m = probe2 m) →
        health_check masters slaves probe2
          = (health_nodes masters slaves).map (fun n =>
              (node_label n,
                if n = bad then probe_ok (probe2 n) else probe_ok (probe n)))) := by
  refine ⟨health_check_eq_map masters slaves probe, ?_, ?_⟩
  · rw [health_check_eq_map, all_healthy]
    simp [List.countP_map, Function.comp, List.countP_eq_length]
  · intro hpr
    rw [health_check_eq_map]
    apply List.map_congr_left
    intro n _
    by_cases hb : n = bad
    · simp [hb]
    · simp [hb, hpr n hb]

/-- Witness for C7, at the spec's scenario: three masters and one replica
per shard, the shard-3 replica unreachable; its entry flips to false, every
other entry keeps the healthy probe's value, and the fleet flag is false. -/
theorem health_aggregation_witness :
    health_check [1, 2, 3] [(1, 1), (2, 1), (3, 1)] probe2_demo
      = (health_nodes [1, 2, 3] [(1, 1), (2, 1), (3, 1)]).map (fun n =>
          (node_label n,
            if n = PoolRef.slave 3 0 then probe_ok (probe2_demo n)
            else probe_ok (probe_demo n)))
    ∧ all_healthy (health_check [1, 2, 3] [(1, 1), (2, 1), (3, 1)] probe2_demo)
        = false :=
  ⟨(health_aggregation [1, 2, 3] [(1, 1), (2, 1), (3, 1)] probe_demo probe2_demo
      (PoolRef.slave 3 0)).2.2
    (fun m hm => by simp [probe_demo, probe2_demo, hm]),
   by rfl⟩

end ELearnDB
